import Mathlib

/-!
Shallow embedding of the NEO close-approach explorer (models.py, database.py,
filters.py, write.py, helpers.py) and proofs checking the specification's
claims against it.

Conventions of the embedding:
* Python strings are `List Char` (`PyStr`); Python `None` is `Option.none`.
* Python floats are `PFloat`: either the not-a-number value or a finite
  decimal modelled as a rational.  IEEE infinities never arise in the
  embedded code paths and are outside the model.
* Fallible Python code (raising statements, undefined names, attribute
  misses) is embedded in `Except PyErr`.
-/

/-- Kinds of Python exceptions raised by the embedded code.  The payload is
the identifier or message the exception carries. -/
inductive PyErr where
  | nameError (ident : String)
  | attributeError (attr : String)
  | valueError (msg : String)
  deriving DecidableEq, Repr

/-- Model of a Python float as used by this program: the distinguished
not-a-number value (produced for an unknown NEO diameter) or a finite value
modelled as a rational.  Infinities never arise in the embedded code paths. -/
inductive PFloat where
  | nan
  | val (q : ℚ)
  deriving DecidableEq, Repr

/-- Python float equality: NaN compares unequal to everything, itself
included; finite values compare as numbers. -/
def pyEq : PFloat → PFloat → Bool
  | .nan, _ => false
  | _, .nan => false
  | .val a, .val b => a == b

/-- Python float order comparison, as used by `operator.ge` style filters:
any comparison involving NaN is false. -/
def pyLe : PFloat → PFloat → Bool
  | .nan, _ => false
  | _, .nan => false
  | .val a, .val b => a ≤ b

/-- Model of `math.isnan`. -/
def PFloat.isnan : PFloat → Bool
  | .nan => true
  | .val _ => false

/-- Python strings are modelled as lists of characters. -/
abbrev PyStr := List Char

/-- The ASCII whitespace characters removed by Python `str.strip()` (the
data set contains no exotic Unicode whitespace). -/
def isPySpace (c : Char) : Bool :=
  c.toNat = 32 || c.toNat = 9 || c.toNat = 10 || c.toNat = 13 || c.toNat = 11 || c.toNat = 12

/-- Model of Python `str.strip()`: remove leading and trailing whitespace. -/
def pyStrip (s : PyStr) : PyStr :=
  (s.dropWhile isPySpace).rdropWhile isPySpace

/-- Model of Python `str.lower()` on the ASCII range of this data set. -/
def pyLower (s : PyStr) : PyStr :=
  s.map Char.toLower

/-- Model of Python `str.upper()` on the ASCII range of this data set. -/
def pyUpper (s : PyStr) : PyStr :=
  s.map Char.toUpper

/-- The normalized comparison key `x.strip().lower()` computed on both sides
of the designation and name lookups in database.py. -/
def normKey (s : PyStr) : PyStr :=
  pyLower (pyStrip s)

/-- Numeric value of a list of decimal digit characters. -/
def digitsToNat (cs : List Char) : ℕ :=
  cs.foldl (fun a c => 10 * a + (c.toNat - 48)) 0

/-- Parse an unsigned decimal literal of the forms accepted by the Python
`float` builtin that occur in this data set: `digits`, `digits.digits`,
`digits.`, `.digits`. -/
def parseDecimal (cs : List Char) : Option ℚ :=
  let intPart := cs.takeWhile Char.isDigit
  let rest := cs.dropWhile Char.isDigit
  match rest with
  | [] => if intPart.isEmpty then none else some (mkRat (digitsToNat intPart) 1)
  | '.' :: frac =>
    if frac.all Char.isDigit && !(intPart.isEmpty && frac.isEmpty) then
      some (mkRat (digitsToNat intPart * 10 ^ frac.length + digitsToNat frac)
        (10 ^ frac.length))
    else none
  | _ => none

/-- Modelled builtin: the Python `float(s)` conversion, restricted to the
forms this program encounters: surrounding whitespace is ignored, an
optional sign precedes either the word nan or a decimal literal, and
anything else (the empty string included) raises ValueError. -/
def pyFloat (s : PyStr) : Except PyErr PFloat :=
  let t := pyStrip s
  let signedBody : Bool × PyStr :=
    match t with
    | '+' :: r => (false, r)
    | '-' :: r => (true, r)
    | r => (false, r)
  if pyLower signedBody.2 = "nan".toList then .ok .nan
  else
    match parseDecimal signedBody.2 with
    | some q => .ok (.val (if signedBody.1 then -q else q))
    | none => .error (.valueError "could not convert string to float")

/-- A naive calendar timestamp with minute resolution, the result of
`helpers.cd_to_datetime`. -/
structure Datetime where
  year : ℕ
  month : ℕ
  day : ℕ
  hour : ℕ
  minute : ℕ
  deriving DecidableEq, Repr

/-- Number of days of a month, with the Gregorian leap rule, as validated by
`datetime.datetime`. -/
def daysInMonth (y m : ℕ) : ℕ :=
  if m = 2 then (if y % 4 = 0 && (y % 100 ≠ 0 || y % 400 = 0) then 29 else 28)
  else if m = 4 || m = 6 || m = 9 || m = 11 then 30
  else 31

/-- English month abbreviations recognized by the strptime format code for
an abbreviated month name. -/
def monthFromAbbrev (s : PyStr) : Option ℕ :=
  if s = "Jan".toList then some 1
  else if s = "Feb".toList then some 2
  else if s = "Mar".toList then some 3
  else if s = "Apr".toList then some 4
  else if s = "May".toList then some 5
  else if s = "Jun".toList then some 6
  else if s = "Jul".toList then some 7
  else if s = "Aug".toList then some 8
  else if s = "Sep".toList then some 9
  else if s = "Oct".toList then some 10
  else if s = "Nov".toList then some 11
  else if s = "Dec".toList then some 12
  else none

/-- Modelled builtin: helpers.cd_to_datetime, which is
`datetime.datetime.strptime(calendar_date, a fixed year-month-day
hour-minute format)`, restricted to the zero-padded shape the NASA `cd`
field always has; any other input raises ValueError. -/
def cd_to_datetime (s : PyStr) : Except PyErr Datetime :=
  match s with
  | [y1, y2, y3, y4, '-', m1, m2, m3, '-', d1, d2, ' ', h1, h2, ':', n1, n2] =>
    if [y1, y2, y3, y4].all Char.isDigit && [d1, d2].all Char.isDigit
        && [h1, h2].all Char.isDigit && [n1, n2].all Char.isDigit then
      match monthFromAbbrev [m1, m2, m3] with
      | some m =>
        let y := digitsToNat [y1, y2, y3, y4]
        let d := digitsToNat [d1, d2]
        let h := digitsToNat [h1, h2]
        let n := digitsToNat [n1, n2]
        if 1 ≤ d && d ≤ daysInMonth y m && h ≤ 23 && n ≤ 59 then
          .ok ⟨y, m, d, h, n⟩
        else .error (.valueError "time data does not match format")
      | none => .error (.valueError "time data does not match format")
    else .error (.valueError "time data does not match format")
  | _ => .error (.valueError "time data does not match format")

/-! ## models.py -/

mutual

/-- models.py NearEarthObject: designation, optional name, diameter,
hazardous flag, and the collection of linked close approaches.  The two
classes reference each other, hence the mutual declaration. -/
inductive NearEarthObject : Type where
  | mk (designation : PyStr) (name : Option PyStr) (diameter : PFloat)
      (hazardous : Bool) (approaches : List CloseApproach) : NearEarthObject

/-- models.py CloseApproach.  The object's attribute dictionary after
construction holds the private designation key, the parsed time, distance
and velocity; `neoAttr` records whether a `neo` attribute exists at all:
`none` means the attribute was never created (reading it raises
AttributeError), `some n` means it was set to the NEO `n`. -/
inductive CloseApproach : Type where
  | mk (_designation : Option PyStr) (time : Datetime) (distance : PFloat)
      (velocity : PFloat) (neoAttr : Option NearEarthObject) : CloseApproach

end

def NearEarthObject.designation : NearEarthObject → PyStr
  | .mk d _ _ _ _ => d

def NearEarthObject.name : NearEarthObject → Option PyStr
  | .mk _ n _ _ _ => n

def NearEarthObject.diameter : NearEarthObject → PFloat
  | .mk _ _ di _ _ => di

def NearEarthObject.hazardous : NearEarthObject → Bool
  | .mk _ _ _ h _ => h

def NearEarthObject.approaches : NearEarthObject → List CloseApproach
  | .mk _ _ _ _ a => a

def CloseApproach._designation : CloseApproach → Option PyStr
  | .mk d _ _ _ _ => d

def CloseApproach.time : CloseApproach → Datetime
  | .mk _ t _ _ _ => t

def CloseApproach.distance : CloseApproach → PFloat
  | .mk _ _ d _ _ => d

def CloseApproach.velocity : CloseApproach → PFloat
  | .mk _ _ _ v _ => v

def CloseApproach.neoAttr : CloseApproach → Option NearEarthObject
  | .mk _ _ _ _ n => n

/-- NearEarthObject.__init__: the name normalizes the empty string to None,
the diameter becomes NaN for an empty string and otherwise goes through
`float` (whose failure propagates as ValueError), and the approaches
collection starts empty (the close_approaches parameter defaults to None,
which both guards in the source turn into the empty list). -/
def NearEarthObject.init (designation name diameter : PyStr)
    (hazardous : Bool := false) : Except PyErr NearEarthObject := do
  let diam ← if diameter.isEmpty then pure PFloat.nan else pyFloat diameter
  pure (.mk designation (if name.isEmpty then none else some name) diam hazardous [])

/-- CloseApproach.__init__: stores the designation key, parses the time
with cd_to_datetime and the distance and velocity with `float` (failures
propagate as ValueError).  When the neo parameter is None the source
assigns the local variable `_designation` instead of `self.neo`, so no
`neo` attribute is created at all; only when a NEO is supplied is the
attribute set. -/
def CloseApproach.init (time distance velocity : PyStr)
    (neo : Option NearEarthObject := none) (designation : Option PyStr := none) :
    Except PyErr CloseApproach := do
  let t ← cd_to_datetime time
  let d ← pyFloat distance
  let v ← pyFloat velocity
  pure (.mk designation t d v neo)

/-- Reading the `neo` attribute of a CloseApproach: raises AttributeError
when the attribute was never created. -/
def CloseApproach.getNeo (ca : CloseApproach) : Except PyErr NearEarthObject :=
  match ca.neoAttr with
  | none => .error (.attributeError "neo")
  | some n => .ok n

/-- Reading `result.designation` on a CloseApproach, as write.py does:
__init__ only ever creates the attributes `_designation`, `time`,
`distance`, `velocity` and (when a NEO is supplied) `neo`, and the class
defines no attribute or property named `designation`, so this access
raises AttributeError on every CloseApproach. -/
def CloseApproach.designationAttr (_ca : CloseApproach) : Except PyErr PyStr :=
  .error (.attributeError "designation")

/-! ## database.py -/

/-- A NEODatabase holds the two collections handed to the constructor. -/
structure NEODatabase where
  _neos : List NearEarthObject
  _approaches : List CloseApproach

/-- The list comprehension at the top of populate_relationships_single_pass:
for each object of `neos + close_approaches` it evaluates
`isinstance(obj, A)` where `A` is a global name that is defined nowhere in
the program, so the first element makes it raise NameError; over an empty
input the comprehension body never runs and the empty list is produced. -/
def combined_list (objs : List (NearEarthObject ⊕ CloseApproach)) :
    Except PyErr (List ((NearEarthObject ⊕ CloseApproach) × Bool)) :=
  match objs with
  | [] => .ok []
  | _ :: _ => .error (.nameError "A")

/-- database.py populate_relationships_single_pass.  Building combined_list
already raises NameError for any nonempty input, so the loop that follows
only ever iterates over the empty list; an iteration, were one to happen,
would end in the for-else block that reads the equally undefined global
`a_dict`. -/
def populate_relationships_single_pass (neos : List NearEarthObject)
    (close_approaches : List CloseApproach) : Except PyErr Unit := do
  let combined ← combined_list (neos.map Sum.inl ++ close_approaches.map Sum.inr)
  match combined with
  | [] => pure ()
  | _ :: _ => .error (.nameError "a_dict")

/-- NEODatabase.__init__: store both collections, then run the linking
pass; an exception from the pass aborts construction. -/
def NEODatabase.init (neos : List NearEarthObject)
    (approaches : List CloseApproach) : Except PyErr NEODatabase := do
  let db : NEODatabase := ⟨neos, approaches⟩
  populate_relationships_single_pass db._neos db._approaches
  pure db

/-- The loop body of NEODatabase.get_neo_by_designation: return the first
NEO whose stripped, lowercased designation equals the stripped, lowercased
query, else None. -/
def findByDesignation : List NearEarthObject → PyStr → Option NearEarthObject
  | [], _ => none
  | neo :: rest, d =>
    if normKey d = normKey neo.designation then some neo
    else findByDesignation rest d

/-- database.py NEODatabase.get_neo_by_designation. -/
def NEODatabase.get_neo_by_designation (db : NEODatabase) (designation : PyStr) :
    Option NearEarthObject :=
  findByDesignation db._neos designation

/-- The loop body of NEODatabase.get_neo_by_name: NEOs whose name is None
are skipped, otherwise the stripped, lowercased names are compared. -/
def findByName : List NearEarthObject → PyStr → Option NearEarthObject
  | [], _ => none
  | neo :: rest, nm =>
    match neo.name with
    | none => findByName rest nm
    | some s => if normKey nm = normKey s then some neo else findByName rest nm

/-- database.py NEODatabase.get_neo_by_name. -/
def NEODatabase.get_neo_by_name (db : NEODatabase) (name : PyStr) :
    Option NearEarthObject :=
  findByName db._neos name

/-- database.py NEODatabase.query: the body loops over the stored
approaches and yields every one of them; the filters parameter is never
consulted.  A filter, per filters.py, is a one-argument callable predicate
on a CloseApproach. -/
def NEODatabase.query (db : NEODatabase)
    (filters : List (CloseApproach → Bool) := []) : List CloseApproach :=
  db._approaches

/-! ## filters.py -/

/-- Calendar date, as carried by the date criteria of create_filters. -/
structure PyDate where
  year : ℕ
  month : ℕ
  day : ℕ
  deriving DecidableEq, Repr

/-- filters.py create_filters: whatever criteria are supplied, the body is
a stub that returns the empty tuple, producing no filter at all. -/
def create_filters
    (date start_date end_date : Option PyDate := none)
    (distance_min distance_max velocity_min velocity_max : Option ℚ := none)
    (diameter_min diameter_max : Option ℚ := none)
    (hazardous : Option Bool := none) : List (CloseApproach → Bool) :=
  []

/-- filters.py limit: the body is a stub that returns the input iterator
unchanged, whatever n is (n models the Python argument, with None for the
absent default). -/
def limit {α : Type} (iterator : List α) (n : Option ℕ := none) : List α :=
  iterator

/-! ## write.py -/

/-- A value stored into the row dictionary handed to the csv writer.  The
dictionary holds heterogeneous Python objects: the raw datetime object,
floats, strings, None (which the csv module renders as an empty string),
and booleans. -/
inductive CsvCell where
  | str (s : PyStr)
  | float (x : PFloat)
  | datetime (t : Datetime)
  | bool (b : Bool)
  | pyNone
  deriving DecidableEq, Repr

/-- The fieldnames tuple of write_to_csv. -/
def csvFieldnames : List String :=
  ["datetime_utc", "distance_au", "velocity_km_s",
   "designation", "name", "diameter_km", "potentially_hazardous"]

/-- The row dictionary built for one result in write_to_csv, with the
values listed in fieldnames order.  The dictionary literal evaluates its
values in source order: the plain attribute reads of time, distance and
velocity come first, then `result.designation` (an attribute the class
never defines - this read raises AttributeError), then the reads through
`result.neo`.  Note the datetime_utc value is the raw datetime object, not
the formatted time_str. -/
def writeCsvRow (result : CloseApproach) : Except PyErr (List CsvCell) := do
  let dt := result.time
  let dist := result.distance
  let vel := result.velocity
  let des ← result.designationAttr
  let neo ← result.getNeo
  pure [.datetime dt, .float dist, .float vel, .str des,
    (match neo.name with | none => .pyNone | some s => .str s),
    .float neo.diameter, .bool neo.hazardous]

/-- write.py write_to_csv, modelled as the data it writes: the header row
of fieldnames followed by one row dictionary per result; an exception
while building a row aborts the write. -/
def write_to_csv (results : List CloseApproach) :
    Except PyErr (List String × List (List CsvCell)) := do
  let rows ← results.mapM writeCsvRow
  pure (csvFieldnames, rows)

/-! ## Concrete fixture values used by the claim checks -/

/-- NEO from the test data set: designation 1865, name Cerberus. -/
def cerberus : NearEarthObject :=
  .mk "1865".toList (some "Cerberus".toList) (.val (mkRat 6 5)) false []

/-- A close approach whose designation key matches cerberus, not yet
linked (no neo attribute). -/
def approach1865 : CloseApproach :=
  .mk (some "1865".toList) ⟨2020, 1, 1, 12, 0⟩ (.val (mkRat 1 5)) (.val (mkRat 5 2)) none

/-- The same close approach with its neo attribute set to cerberus, the
post-linking state the documentation promises. -/
def linkedApproach1865 : CloseApproach :=
  .mk (some "1865".toList) ⟨2020, 1, 1, 12, 0⟩ (.val (mkRat 1 5)) (.val (mkRat 5 2)) (some cerberus)

/-- Test filter inputs representing the contradictory bounds
distance_min=0.4 and distance_max=0.1 of the specification filter table:
an AttributeFilter applies its comparator to the fetched attribute on the
left and the reference value on the right. -/
def contradictoryDistanceFilters : List (CloseApproach → Bool) :=
  [fun ca => pyLe (.val (mkRat 2 5)) ca.distance,
   fun ca => pyLe ca.distance (.val (mkRat 1 10))]

/-- An NEO whose stored name is the one-character whitespace string: the
constructor only normalizes the exactly-empty name to None, so a blank
name is stored as is. -/
def whitespaceNameNeo : NearEarthObject :=
  .mk "X".toList (some " ".toList) .nan false []

/-- An NEO built from a record with empty name and empty diameter. -/
def unnamedNeoX : NearEarthObject :=
  .mk "X".toList none .nan false []

/-- Holds of an NEO whose stored name, when present, does not strip to the
empty string. -/
def nameNotBlank (neo : NearEarthObject) : Bool :=
  match neo.name with
  | none => true
  | some s => !(pyStrip s).isEmpty

/-! ## Claim checks -/

/-- Claim C1: for valid matching collections, database construction is
supposed to leave the union of all NEO approaches equal to the input
approach collection with every approach linked.  The code instead raises
NameError (the undefined global A inside the linking pass) on this valid
one-NEO, one-approach input, so construction never completes and the
claimed invariants are never established. -/
theorem join_completeness_not_established :
    approach1865._designation = some cerberus.designation ∧
    NEODatabase.init [cerberus] [approach1865] = .error (.nameError "A") :=
  ⟨rfl, rfl⟩

/-- Claim C2: the constructor raises an unhandled NameError whenever the
combined collections hold at least one element, and succeeds exactly on
two empty collections. -/
theorem database_init_fails_unless_both_empty
    (neos : List NearEarthObject) (approaches : List CloseApproach) :
    NEODatabase.init neos approaches =
      (if neos.isEmpty && approaches.isEmpty
        then .ok ⟨neos, approaches⟩
        else .error (.nameError "A")) := by
  cases neos <;> cases approaches <;> rfl

/-- Claim C3: query is supposed to yield exactly the approaches satisfying
every supplied filter, with contradictory distance bounds yielding none.
The code ignores the filters entirely: with contradictory bounds over a
one-approach database it still yields that approach, which satisfies
none of the bound filters; and create_filters discards even the
contradictory criteria, producing no filter at all. -/
theorem query_yields_all_ignoring_filters :
    NEODatabase.query ⟨[], [approach1865]⟩ contradictoryDistanceFilters = [approach1865] ∧
    contradictoryDistanceFilters.all (fun f => f approach1865) = false ∧
    create_filters none none none (some (mkRat 2 5)) (some (mkRat 1 10))
      none none none none none = [] :=
  ⟨rfl, by decide, rfl⟩

/-- Claim C4: limit with a positive n is supposed to yield only the first
n elements.  The code returns the input unchanged: on a five-element list
with n = 3 it yields all five elements, not the first three. -/
theorem limit_returns_input_unchanged :
    limit [0, 1, 2, 3, 4] (some 3) = [0, 1, 2, 3, 4] ∧
    ([0, 1, 2, 3, 4] : List ℕ) ≠ [0, 1, 2] :=
  ⟨rfl, by decide⟩

/-- Claim C7: a CloseApproach constructed without a NEO is supposed to
expose neo = None until linking.  The constructor instead assigns the
local variable _designation in the None branch and never creates the neo
attribute, so reading it on the freshly built object raises
AttributeError rather than yielding None. -/
theorem unlinked_approach_neo_attribute_missing :
    CloseApproach.init "2020-Jan-01 12:00".toList "0.2".toList "2.5".toList
        none (some "1865".toList) = .ok approach1865 ∧
    approach1865.getNeo = .error (.attributeError "neo") :=
  ⟨rfl, rfl⟩

/-- Claim C8, counterexample: a close approach record with an absent
(empty) distance field is supposed to recover with the documented default
0.0; the constructor instead lets the float conversion raise ValueError,
so construction fails. -/
theorem missing_distance_raises_value_error :
    CloseApproach.init "2020-Jan-01 12:00".toList [] "2.5".toList
        none (some "1865".toList) =
      .error (.valueError "could not convert string to float") :=
  rfl

/-- Claim C10: write_to_csv produces the header row with exactly the seven
required columns in order, but it cannot produce a data row: building the
row dictionary reads result.designation, an attribute CloseApproach never
defines (the key is stored as _designation), so the write raises
AttributeError on the first linked approach instead of emitting its row. -/
theorem write_to_csv_header_and_row_failure :
    write_to_csv [] = .ok (csvFieldnames, []) ∧
    csvFieldnames = ["datetime_utc", "distance_au", "velocity_km_s",
      "designation", "name", "diameter_km", "potentially_hazardous"] ∧
    write_to_csv [linkedApproach1865] = .error (.attributeError "designation") :=
  ⟨rfl, rfl, rfl⟩

/-! ## Helper lemmas about the string model -/

/-- Converting a valid code point to a character and back is the identity. -/
theorem char_toNat_ofNat_valid (n : ℕ) (h : n.isValidChar) :
    (Char.ofNat n).toNat = n := by
  unfold Char.ofNat
  rw [dif_pos h]
  unfold Char.ofNatAux Char.toNat
  simp [UInt32.ofNat', UInt32.toNat, BitVec.toNat_ofNatLt]

/-- Lowercasing after uppercasing gives the same character as lowercasing
directly (on all of Unicode, since the case maps only act on basic latin). -/
theorem char_toLower_toUpper (c : Char) : (c.toUpper).toLower = c.toLower := by
  simp only [Char.toUpper, Char.toLower]
  by_cases h : c.toNat ≥ 97 ∧ c.toNat ≤ 122
  · have hv : (c.toNat - 32).isValidChar := Or.inl (by omega)
    have ht : (Char.ofNat (c.toNat - 32)).toNat = c.toNat - 32 :=
      char_toNat_ofNat_valid _ hv
    have h32 : c.toNat - 32 + 32 = c.toNat := by omega
    rw [if_pos h, ht, if_pos (by omega), h32, Char.ofNat_toNat, if_neg (by omega)]
  · rw [if_neg h]

/-- Uppercasing does not create or destroy whitespace. -/
theorem isPySpace_toUpper (c : Char) : isPySpace c.toUpper = isPySpace c := by
  simp only [Char.toUpper]
  by_cases h : c.toNat ≥ 97 ∧ c.toNat ≤ 122
  · have hv : (c.toNat - 32).isValidChar := Or.inl (by omega)
    have ht : (Char.ofNat (c.toNat - 32)).toNat = c.toNat - 32 :=
      char_toNat_ofNat_valid _ hv
    rw [if_pos h]
    have hL : isPySpace (Char.ofNat (c.toNat - 32)) = false := by
      simp only [isPySpace, ht, Bool.or_eq_false_iff, decide_eq_false_iff_not]
      omega
    have hR : isPySpace c = false := by
      simp only [isPySpace, Bool.or_eq_false_iff, decide_eq_false_iff_not]
      omega
    rw [hL, hR]
  · rw [if_neg h]

/-- dropWhile commutes with mapping a function that preserves the predicate. -/
theorem dropWhile_map_comm (f : Char → Char) (p : Char → Bool)
    (hp : ∀ c, p (f c) = p c) (l : List Char) :
    (l.map f).dropWhile p = (l.dropWhile p).map f := by
  induction l with
  | nil => rfl
  | cons a t ih =>
    cases hpa : p a <;>
      simp [List.dropWhile_cons, hp a, hpa, ih]

/-- rdropWhile commutes with mapping a function that preserves the predicate. -/
theorem rdropWhile_map_comm (f : Char → Char) (p : Char → Bool)
    (hp : ∀ c, p (f c) = p c) (l : List Char) :
    (l.map f).rdropWhile p = (l.rdropWhile p).map f := by
  simp only [List.rdropWhile]
  rw [← List.map_reverse, dropWhile_map_comm f p hp, ← List.map_reverse]

/-- Stripping is unaffected by a leading space. -/
theorem pyStrip_cons_space (s : PyStr) : pyStrip (' ' :: s) = pyStrip s := by
  have h : isPySpace ' ' = true := by decide
  simp [pyStrip, List.dropWhile_cons, h]

/-- Stripping is unaffected by a trailing space. -/
theorem pyStrip_append_space (s : PyStr) : pyStrip (s ++ [' ']) = pyStrip s := by
  induction s with
  | nil => rfl
  | cons a t ih =>
    cases hpa : isPySpace a with
    | true => simpa [pyStrip, List.dropWhile_cons, hpa] using ih
    | false =>
      simp only [pyStrip, List.cons_append, List.dropWhile_cons, hpa,
        Bool.false_eq_true, if_false]
      rw [show a :: (t ++ [' ']) = (a :: t) ++ [' '] from rfl,
        List.rdropWhile_concat_pos isPySpace (a :: t) ' ' (by decide)]

/-- The normalized lookup key ignores a surrounding pair of spaces. -/
theorem normKey_wrap_space (s : PyStr) : normKey (' ' :: s ++ [' ']) = normKey s := by
  unfold normKey
  rw [show ' ' :: s ++ [' '] = ' ' :: (s ++ [' ']) from rfl,
    pyStrip_cons_space, pyStrip_append_space]

/-- The normalized lookup key ignores uppercasing of the query. -/
theorem normKey_pyUpper (s : PyStr) : normKey (pyUpper s) = normKey s := by
  unfold normKey pyUpper pyLower pyStrip
  rw [dropWhile_map_comm Char.toUpper isPySpace isPySpace_toUpper,
    rdropWhile_map_comm Char.toUpper isPySpace isPySpace_toUpper,
    List.map_map]
  simp only [Function.comp_def, char_toLower_toUpper]

/-- A designation lookup that returns an NEO returns a member of the list
whose normalized designation matches the normalized query. -/
theorem findByDesignation_some : ∀ (neos : List NearEarthObject) (d : PyStr)
    (neo : NearEarthObject), findByDesignation neos d = some neo →
    neo ∈ neos ∧ normKey d = normKey neo.designation := by
  intro neos d
  induction neos with
  | nil => intro neo h; exact absurd h (by simp [findByDesignation])
  | cons hd tl ih =>
    intro neo h
    unfold findByDesignation at h
    split at h
    · rename_i hc
      have hEq : hd = neo := by injection h
      subst hEq
      exact ⟨List.mem_cons_self hd tl, hc⟩
    · obtain ⟨hm, he⟩ := ih neo h
      exact ⟨List.mem_cons_of_mem hd hm, he⟩

/-- A designation lookup returns None exactly when no NEO in the list has
a matching normalized designation. -/
theorem findByDesignation_none_iff (neos : List NearEarthObject) (d : PyStr) :
    findByDesignation neos d = none ↔
      ∀ neo ∈ neos, normKey d ≠ normKey neo.designation := by
  induction neos with
  | nil => simp [findByDesignation]
  | cons hd tl ih =>
    unfold findByDesignation
    by_cases hc : normKey d = normKey hd.designation
    · simp [hc]
    · simp only [hc, if_false, ih, List.mem_cons]
      constructor
      · rintro h neo (rfl | hm)
        · exact hc
        · exact h neo hm
      · intro h neo hm
        exact h neo (Or.inr hm)

/-- Queries with the same normalized key give the same lookup result. -/
theorem findByDesignation_congr (neos : List NearEarthObject) (d1 d2 : PyStr)
    (h : normKey d1 = normKey d2) :
    findByDesignation neos d1 = findByDesignation neos d2 := by
  induction neos with
  | nil => rfl
  | cons hd tl ih =>
    unfold findByDesignation
    rw [h, ih]

/-- A name lookup with the empty query string finds nothing in a list
whose stored names never strip to the empty string. -/
theorem findByName_empty_query (neos : List NearEarthObject)
    (h : neos.all nameNotBlank = true) : findByName neos [] = none := by
  induction neos with
  | nil => rfl
  | cons hd tl ih =>
    rw [List.all_cons, Bool.and_eq_true] at h
    unfold findByName
    cases hn : hd.name with
    | none => exact ih h.2
    | some s =>
      have hblank : (pyStrip s).isEmpty = false := by
        have := h.1
        rw [nameNotBlank, hn] at this
        simpa using this
      have hne : normKey [] ≠ normKey s := by
        intro hcontra
        rw [show normKey [] = [] from rfl] at hcontra
        have : pyStrip s = [] := by
          have := hcontra.symm
          unfold normKey pyLower at this
          exact List.map_eq_nil_iff.mp this
        rw [this] at hblank
        simp at hblank
      show (if normKey [] = normKey s then some hd else findByName tl []) = none
      rw [if_neg hne]
      exact ih h.2

/-- The constructor of NearEarthObject, written as a map over the diameter
conversion: this unfolds the do notation once and for all. -/
theorem NearEarthObject.init_eq (des nm diam : PyStr) (hz : Bool) :
    NearEarthObject.init des nm diam hz =
      (if diam.isEmpty then (pure PFloat.nan : Except PyErr PFloat)
        else pyFloat diam).map
        (fun dv =>
          NearEarthObject.mk des (if nm.isEmpty then none else some nm) dv hz []) := by
  cases diam with
  | nil => rfl
  | cons c cs =>
    cases hf : pyFloat (c :: cs) with
    | error e => simp [NearEarthObject.init, hf, Bind.bind, Except.bind, Except.map]
    | ok dv =>
      simp [NearEarthObject.init, hf, Bind.bind, Except.bind, Except.map,
        pure, Except.pure]

/-- Claim C5: the designation lookup returns exactly the NEOs whose
designation matches the query after stripping whitespace and lowercasing
both sides; it returns None (and never raises) exactly when nothing
matches, and the result is invariant under wrapping the query in spaces
or uppercasing it. -/
theorem get_neo_by_designation_spec (db : NEODatabase) (d : PyStr) :
    (∀ neo, db.get_neo_by_designation d = some neo →
        neo ∈ db._neos ∧ normKey d = normKey neo.designation) ∧
    (db.get_neo_by_designation d = none ↔
        ∀ neo ∈ db._neos, normKey d ≠ normKey neo.designation) ∧
    db.get_neo_by_designation (' ' :: d ++ [' ']) = db.get_neo_by_designation d ∧
    db.get_neo_by_designation (pyUpper d) = db.get_neo_by_designation d := by
  refine ⟨fun neo h => findByDesignation_some db._neos d neo h,
    findByDesignation_none_iff db._neos d, ?_, ?_⟩
  · exact findByDesignation_congr db._neos (' ' :: d ++ [' ']) d (normKey_wrap_space d)
  · exact findByDesignation_congr db._neos (pyUpper d) d (normKey_pyUpper d)

/-- Witness for claim C5 at a concrete database: looking up the space
padded query returns the stored NEO and certifies the matching key, and
the padded and uppercased queries agree with the plain one. -/
theorem get_neo_by_designation_spec_witness :
    (cerberus ∈ ({ _neos := [cerberus], _approaches := [] } : NEODatabase)._neos ∧
      normKey " 1865 ".toList = normKey cerberus.designation) ∧
    NEODatabase.get_neo_by_designation ⟨[cerberus], []⟩ (' ' :: "1865".toList ++ [' ']) =
      NEODatabase.get_neo_by_designation ⟨[cerberus], []⟩ "1865".toList ∧
    NEODatabase.get_neo_by_designation ⟨[cerberus], []⟩ (pyUpper "1865".toList) =
      NEODatabase.get_neo_by_designation ⟨[cerberus], []⟩ "1865".toList :=
  ⟨(get_neo_by_designation_spec ⟨[cerberus], []⟩ " 1865 ".toList).1 cerberus rfl,
   (get_neo_by_designation_spec ⟨[cerberus], []⟩ "1865".toList).2.2.1,
   (get_neo_by_designation_spec ⟨[cerberus], []⟩ "1865".toList).2.2.2⟩

/-- Claim C6, counterexample: an NEO record whose name field is a single
space is stored with that blank name (only the exactly-empty name is
normalized to None), and the empty-string lookup then matches it, because
both sides strip and lowercase to the empty key - so the empty query does
not always return the absent value. -/
theorem get_neo_by_name_empty_matches_blank_name :
    NearEarthObject.init "X".toList " ".toList [] false = .ok whitespaceNameNeo ∧
    NEODatabase.get_neo_by_name ⟨[whitespaceNameNeo], []⟩ [] = some whitespaceNameNeo ∧
    NEODatabase.get_neo_by_name ⟨[whitespaceNameNeo], []⟩ [] ≠ none :=
  ⟨rfl, rfl, Option.some_ne_none whitespaceNameNeo⟩

/-- Claim C6 as amended: for databases in which every stored name, when
present, contains at least one non-whitespace character, the empty-string
name lookup matches no NEO and returns None; and an NEO constructed with
an empty name field stores the absent name, so it can never be indexed
under a name at all. -/
theorem get_neo_by_name_empty_amended :
    (∀ (db : NEODatabase), db._neos.all nameNotBlank = true →
        db.get_neo_by_name [] = none) ∧
    (∀ (des diameter : PyStr) (hz : Bool) (r : NearEarthObject),
        NearEarthObject.init des [] diameter hz = .ok r → r.name = none) := by
  constructor
  · intro db h
    exact findByName_empty_query db._neos h
  · intro des diameter hz r h
    rw [NearEarthObject.init_eq] at h
    cases hf : (if diameter.isEmpty then (pure PFloat.nan : Except PyErr PFloat)
        else pyFloat diameter) with
    | error e => rw [hf] at h; simp [Except.map] at h
    | ok dv =>
      rw [hf] at h
      simp only [Except.map, Except.ok.injEq] at h
      rw [← h]
      rfl

/-- Witness for claim C6 as amended, at a concrete database with a real
name and at a concrete record with an empty name field. -/
theorem get_neo_by_name_empty_amended_witness :
    NEODatabase.get_neo_by_name ⟨[cerberus], []⟩ [] = none ∧
    unnamedNeoX.name = none :=
  ⟨get_neo_by_name_empty_amended.1 ⟨[cerberus], []⟩ (by decide),
   get_neo_by_name_empty_amended.2 "X".toList [] false unnamedNeoX rfl⟩

/-- Claim C8 as amended: the local recovery the code actually performs is
limited to an NEO with an absent (empty) diameter field, which becomes the
NaN unknown sentinel without an error; an unparsable diameter, and an
absent or unparsable close-approach distance (or velocity), instead raise
ValueError from the float conversion - there is no 0.0 default. -/
theorem field_default_recovery_amended :
    (∀ (des nm : PyStr) (hz : Bool),
        NearEarthObject.init des nm [] hz =
          .ok (.mk des (if nm.isEmpty then none else some nm) PFloat.nan hz [])) ∧
    NearEarthObject.init "1865".toList [] "abc".toList false =
      .error (.valueError "could not convert string to float") ∧
    CloseApproach.init "2020-Jan-01 12:00".toList "abc".toList "2.5".toList
        none (some "1865".toList) =
      .error (.valueError "could not convert string to float") :=
  ⟨fun des nm hz => rfl, rfl, rfl⟩

/-- Claim C9: an NEO constructed from a record with an empty diameter
field carries the NaN sentinel: the is-NaN check recognizes it, and float
equality with any value - zero, any number, or the sentinel itself
- is false. -/
theorem empty_diameter_nan_semantics (des nm : PyStr) (hz : Bool)
    (r : NearEarthObject) (h : NearEarthObject.init des nm [] hz = .ok r) :
    r.diameter.isnan = true ∧
    ∀ x, pyEq r.diameter x = false ∧ pyEq x r.diameter = false := by
  rw [NearEarthObject.init_eq] at h
  have hr : NearEarthObject.mk des (if nm.isEmpty then none else some nm)
      PFloat.nan hz [] = r := by
    simpa [Except.map, pure, Except.pure] using h
  have hd : r.diameter = PFloat.nan := by rw [← hr]; rfl
  rw [hd]
  exact ⟨rfl, fun x => by cases x <;> exact ⟨rfl, rfl⟩⟩

/-- Witness for claim C9 at a concrete record with an empty diameter
field. -/
theorem empty_diameter_nan_semantics_witness :
    unnamedNeoX.diameter.isnan = true ∧
    pyEq unnamedNeoX.diameter (.val 0) = false ∧
    pyEq unnamedNeoX.diameter unnamedNeoX.diameter = false :=
  ⟨(empty_diameter_nan_semantics "X".toList [] false unnamedNeoX rfl).1,
   ((empty_diameter_nan_semantics "X".toList [] false unnamedNeoX rfl).2 (.val 0)).1,
   ((empty_diameter_nan_semantics "X".toList [] false unnamedNeoX rfl).2
     unnamedNeoX.diameter).1⟩
